import Mathlib

/-!
Shallow embedding of `src/python/moomoo_export.py` (the Moomoo account-export
script) together with theorems checking the natural-language specification
against it.

Modelling conventions:
* The vendor SDK (`moomoo` / `futu`) is an external collaborator.  Its three
  query operations each return a pair `(ret, data)` where `ret == RET_OK`
  means `data` is a pandas DataFrame and a non-success `ret` means `data` is a
  diagnostic error string.  This is embedded as `QueryResult`: `ok rows`
  carries the tabular rows, `err msg` carries the diagnostic string.  A
  `TradeCtx` records, for one run, what each query returns per account id.
* DataFrames become lists of typed rows; money amounts are embedded as `ℚ`
  (the Python floats in play, such as the threshold `0.1`, are treated as
  exact decimals).
* Console prints and file writes become an `Event` trace; each event records
  exactly the data the source interpolates into the corresponding print or
  write (for example the skip notice on line 144 interpolates the full
  `acc_id`, so `Event.skipInactive` carries that string).
* Python exceptions become `Except PyError` / `Option PyError` results.  The
  uncaught use of the unassigned local `acc_ids` (line 116 when `acc_id` is
  not None) surfaces as `PyError.nameError "acc_ids"` (in CPython it is the
  NameError subclass UnboundLocalError); calling `.to_dict` on a non-DataFrame
  error payload surfaces as `PyError.attributeError`; list index `[0]` on an
  empty record list surfaces as `PyError.indexError`.
* Wall-clock effects (`time.sleep`, `datetime.now`) carry no data dependence;
  the timestamp string is passed in as the parameter `now`.
-/

namespace MoomooExport

/-- Python exception values that the embedded code can raise. -/
inductive PyError where
  | runtimeError (msg : String)
  | nameError (var : String)
  | attributeError (msg : String)
  | indexError (msg : String)
  | transportError (msg : String)
deriving DecidableEq, Repr

/-- One row of the positions DataFrame returned by `position_list_query`
(symbol plus quantity; further columns are irrelevant to every claim). -/
structure PositionRow where
  code : String
  qty : ℚ
deriving DecidableEq, Repr

/-- One row of the account-summary DataFrame returned by `accinfo_query`;
the source reads only the `total_assets` column (line 138). -/
structure SummaryRow where
  total_assets : ℚ
deriving DecidableEq, Repr

/-- One row of the account-list DataFrame returned by `get_acc_list`;
the source reads the `trd_env` and `acc_id` columns (lines 100-101). -/
structure AccRecord where
  acc_id : String
  trd_env : String
deriving DecidableEq, Repr

/-- Result of one SDK query: `(RET_OK, DataFrame)` or `(error status,
diagnostic string)`, matching the `ret, data = ...` unpacking in the source. -/
inductive QueryResult (α : Type) where
  | ok (rows : List α)
  | err (msg : String)
deriving DecidableEq, Repr

/-- Embedding of `data.to_dict(orient="records")` applied to the variable that
holds a query result: on a DataFrame it yields the row list; on a diagnostic
string (degraded query) Python raises AttributeError. -/
def QueryResult.toDictRecords {α : Type} : QueryResult α → Except PyError (List α)
  | .ok rows => .ok rows
  | .err msg => .error (PyError.attributeError msg)

/-- Behaviour of one trade context (`ft.OpenSecTradeContext`) during a run:
what `get_acc_list`, `position_list_query` and `accinfo_query` return for each
account id.  The source always passes `refresh_cache=True` and
`currency=Currency.USD`; those constant arguments are baked into the oracle. -/
structure TradeCtx where
  accListResult : QueryResult AccRecord
  positionsResult : String → QueryResult PositionRow
  accinfoResult : String → QueryResult SummaryRow

/-- The JSON document written for one account (line 151):
`dict(timestamp=..., account=..., positions=...)`. -/
structure SnapshotData where
  timestamp : String
  account : SummaryRow
  positions : List PositionRow
deriving DecidableEq, Repr

/-- Python `str(acc_id)[-4:]`: the last four characters (the whole string when
shorter). -/
def last4 (s : String) : String :=
  ⟨s.data.drop (s.data.length - 4)⟩

/-- Output file name built on line 155:
`account_<last4>_data_<timestamp>.json`. -/
def outFileName (accId timestamp : String) : String :=
  "account_" ++ last4 accId ++ "_data_" ++ timestamp ++ ".json"

/-- Observable actions of `export_account_data_for_web` and `get_accounts`:
console prints and file writes, each carrying the data the source
interpolates. -/
inductive Event where
  | queryingAccount (accId : String)
  | positionsFound (n : Nat)
  | totalAssetsShown (v : ℚ)
  | skipInactive (shownAccId : String)
  | fileWritten (accId : String) (fileName : String) (data : SnapshotData)
  | getAccListError (msg : String)
deriving DecidableEq, Repr

/-- Whether an event is a file write (used to assert that a run exports
nothing). -/
def Event.isFileWrite : Event → Bool
  | .fileWritten _ _ _ => true
  | _ => false

/-- Embedding of `get_accounts` (lines 87-105): on `RET_OK`, keep the rows
whose `trd_env` column equals `"REAL"` (the pandas boolean-mask filter keeps
the original row order) and project to the `acc_id` column; otherwise print
the diagnostic payload and return the empty list.  The second component is
the print trace. -/
def get_accounts (ctx : TradeCtx) : List String × List Event :=
  match ctx.accListResult with
  | .ok rows =>
    ((rows.filter fun r => r.trd_env == "REAL").map (fun r => r.acc_id), [])
  | .err msg => ([], [Event.getAccListError msg])

/-- Value of the local variable `total_assets_value` after the summary query
of one loop iteration (lines 133-138): it is reassigned only when
`ret == RET_OK` and the DataFrame is nonempty; otherwise whatever value it had
from a prior iteration (`tav`) stays in scope. -/
def updatedAssets (accRes : QueryResult SummaryRow) (tav : Option ℚ) : Option ℚ :=
  match accRes with
  | .ok rows =>
    match rows.head? with
    | some r => some r.total_assets
    | none => tav
  | .err _ => tav

/-- Prints emitted by one loop iteration before the activity filter runs:
the `Querying account` line (121), the positions success line (129, only when
the positions query succeeded with at least one row) and the total-assets line
(139, only when the summary query succeeded with at least one row). -/
def headEvents (ctx : TradeCtx) (accId : String) : List Event :=
  Event.queryingAccount accId ::
    ((match ctx.positionsResult accId with
      | .ok rows => if 0 < rows.length then [Event.positionsFound rows.length] else []
      | .err _ => []) ++
     (match ctx.accinfoResult accId with
      | .ok rows =>
        match rows.head? with
        | some r => [Event.totalAssetsShown r.total_assets]
        | none => []
      | .err _ => []))

/-- Embedding of one iteration of the `for acc_id in acc_ids` body
(lines 116-158).  `tav` is the incoming value of the function-scoped local
`total_assets_value` (`none` = still unassigned).  Returns the print/write
trace and either the value of `total_assets_value` left for the next
iteration, or the exception that aborts the run:
* if `total_assets_value` is still unassigned at line 143, NameError;
* if it is at most 0.1, the skip notice (printing the full account id) and
  `continue`;
* otherwise `positions_data.to_dict` (line 148) and
  `account_data.to_dict(...)[0]` (line 149) run, raising AttributeError on a
  degraded payload or IndexError on an empty summary DataFrame, and on
  success the snapshot is written (line 156-157) when `export_to_file`. -/
def processOne (ctx : TradeCtx) (now : String) (export_to_file : Bool)
    (accId : String) (tav : Option ℚ) :
    List Event × Except PyError (Option ℚ) :=
  let posRes := ctx.positionsResult accId
  let accRes := ctx.accinfoResult accId
  let evs := headEvents ctx accId
  match updatedAssets accRes tav with
  | none => (evs, .error (PyError.nameError "total_assets_value"))
  | some v =>
    if v ≤ (0.1 : ℚ) then
      (evs ++ [Event.skipInactive accId], .ok (some v))
    else
      match posRes.toDictRecords with
      | .error e => (evs, .error e)
      | .ok positions =>
        match accRes.toDictRecords with
        | .error e => (evs, .error e)
        | .ok accRows =>
          match accRows.head? with
          | none => (evs, .error (PyError.indexError "list index out of range"))
          | some accountDict =>
            if export_to_file then
              (evs ++ [Event.fileWritten accId (outFileName accId now)
                        ⟨now, accountDict, positions⟩], .ok (some v))
            else
              (evs, .ok (some v))

/-- The `for acc_id in acc_ids` loop: iterations run sequentially, threading
the function-scoped `total_assets_value`; an exception in one iteration
propagates immediately (there is no try/except inside the loop), abandoning
the remaining account ids. -/
def runLoop (ctx : TradeCtx) (now : String) (export_to_file : Bool) :
    List String → Option ℚ → List Event × Option PyError
  | [], _ => ([], none)
  | accId :: rest, tav =>
    match processOne ctx now export_to_file accId tav with
    | (evs, .error e) => (evs, some e)
    | (evs, .ok tav2) =>
      let r := runLoop ctx now export_to_file rest tav2
      (evs ++ r.1, r.2)

/-- Embedding of `export_account_data_for_web` (lines 108-158).  The local
`acc_ids` is assigned only inside the `if acc_id is None` branch (line 114);
when the caller passes a non-None `acc_id` the `for` statement on line 116
reads the unassigned local and raises (UnboundLocal) NameError before doing
anything else. -/
def export_account_data_for_web (ctx : TradeCtx) (now : String)
    (acc_id : Option String) (export_to_file : Bool) :
    List Event × Option PyError :=
  let boundAccIds : Option (List String × List Event) :=
    match acc_id with
    | none => some (get_accounts ctx)
    | some _ => none
  match boundAccIds with
  | none => ([], some (PyError.nameError "acc_ids"))
  | some (acc_ids, evs0) =>
    let r := runLoop ctx now export_to_file acc_ids none
    (evs0 ++ r.1, r.2)

/-- Network oracle for the readiness probe: whether the i-th connection
attempt to a given host and port succeeds (`socket.connect` returning) or
fails (raising `socket.error`, which line 56-57 catches and ignores).  The
probe never raises: both outcomes of an attempt are absorbed. -/
structure Net where
  connectOk : String → Nat → Nat → Bool

/-- One connection attempt made by `moomoo_is_running`: the target, the
socket timeout installed by `s.settimeout(retry_delay)` on line 53, and the
outcome. -/
structure ProbeAttempt where
  host : String
  port : Nat
  sockTimeout : ℚ
  succeeded : Bool
deriving DecidableEq, Repr

/-- Python `int()` applied to a (here rational-valued) quotient: truncation
toward zero, used by `range(int(timeout / retry_delay))` on line 50. -/
def pyInt (q : ℚ) : ℤ :=
  if q < 0 then -(Rat.floor (-q)) else Rat.floor q

/-- The `for _ in range(n)` loop of `moomoo_is_running` (lines 50-58):
`n` remaining iterations, `i` the index of the next attempt.  Returns the
final result together with the list of attempts actually made (the loop
returns true at the first success, making no further attempts). -/
def probeGo (net : Net) (host : String) (port : Nat) (retry_delay : ℚ) :
    Nat → Nat → Bool × List ProbeAttempt
  | 0, _ => (false, [])
  | n + 1, i =>
    if net.connectOk host port i then
      (true, [⟨host, port, retry_delay, true⟩])
    else
      let r := probeGo net host port retry_delay n (i + 1)
      (r.1, ⟨host, port, retry_delay, false⟩ :: r.2)

/-- Number of loop iterations of the probe: `int(timeout / retry_delay)`. -/
def numAttempts (timeout retry_delay : ℚ) : Nat :=
  (pyInt (timeout / retry_delay)).toNat

/-- Embedding of `moomoo_is_running` (lines 41-60): result of the bounded
retry loop. -/
def moomoo_is_running (net : Net) (host : String) (port : Nat)
    (timeout retry_delay : ℚ) : Bool :=
  (probeGo net host port retry_delay (numAttempts timeout retry_delay) 0).1

/-- The connection attempts made by one call of `moomoo_is_running`. -/
def probeTrace (net : Net) (host : String) (port : Nat)
    (timeout retry_delay : ℚ) : List ProbeAttempt :=
  (probeGo net host port retry_delay (numAttempts timeout retry_delay) 0).2

/-- Keyword arguments of the `ft.OpenSecTradeContext` constructor call on
lines 70-75. -/
structure SessionConfig where
  filter_trdmarket : String
  host : String
  port : Nat
  security_firm : String
deriving DecidableEq, Repr

/-- The fixed configuration the source passes: `TrdMarket.US`, localhost
port 11111, `SecurityFirm.FUTUSG`. -/
def openSecTradeContextArgs : SessionConfig :=
  { filter_trdmarket := "US", host := "127.0.0.1", port := 11111,
    security_firm := "FUTUSG" }

/-- Observable actions of the `__main__` block and of `get_trade_context`. -/
inductive MainEvent where
  | acquiring
  | probeNotRunning
  | sessionOpened (cfg : SessionConfig)
  | acquired
  | exportEvent (e : Event)
  | closed
deriving DecidableEq, Repr

/-- One whole run of the script: the network behaviour seen by the probe,
whether the `ft.OpenSecTradeContext` constructor raises (a transport-level
failure in the external SDK; `none` = it returns normally), the behaviour of
the constructed context, and the wall-clock timestamp string. -/
structure World where
  net : Net
  ctorError : Option String
  ctx : TradeCtx
  now : String

/-- Embedding of `get_trade_context` (lines 63-76): calls the probe with its
default arguments (host 127.0.0.1, port 11111, timeout 3, retry 0.5); on
failure prints the red notice and raises RuntimeError; on success calls the
`ft.OpenSecTradeContext` constructor with the fixed configuration (recorded
as a `sessionOpened` event). -/
def get_trade_context (w : World) : List MainEvent × Except PyError TradeCtx :=
  if moomoo_is_running w.net "127.0.0.1" 11111 3 (0.5 : ℚ) then
    match w.ctorError with
    | some m => ([], .error (PyError.transportError m))
    | none => ([MainEvent.sessionOpened openSecTradeContextArgs], .ok w.ctx)
  else
    ([MainEvent.probeNotRunning],
     .error (PyError.runtimeError "Moomoo OpenD is not running."))

/-- Outcome of the `__main__` block: the full event trace, the exception the
process re-raises (if any), and how many times `trd_ctx.close()` was
called. -/
structure MainResult where
  events : List MainEvent
  error : Option PyError
  closes : Nat
deriving DecidableEq, Repr

/-- Embedding of the `__main__` block (lines 161-174): `trd_ctx` starts as
None; inside `try`, acquisition is attempted and on success the export runs
with `acc_id=None`; `except Exception as e: raise e` re-raises unchanged; the
`finally` block closes the context exactly when `trd_ctx is not None`, i.e.
exactly when acquisition succeeded, and prints the closed notice. -/
def pymain (w : World) : MainResult :=
  match get_trade_context w with
  | (gevs, .error e) =>
    { events := MainEvent.acquiring :: gevs, error := some e, closes := 0 }
  | (gevs, .ok ctx) =>
    let r := export_account_data_for_web ctx w.now none true
    { events := MainEvent.acquiring :: gevs ++
        MainEvent.acquired :: (r.1.map MainEvent.exportEvent ++ [MainEvent.closed]),
      error := r.2,
      closes := 1 }

/-! ## Concrete fixtures used by counterexamples and witnesses -/

/-- Run with two real accounts where the first account has a degraded
positions query and both summaries succeed with 500 total assets. -/
def ctxCrashFirst : TradeCtx :=
  { accListResult := .ok [⟨"A1111", "REAL"⟩, ⟨"B2222", "REAL"⟩]
  , positionsResult := fun a =>
      if a == "A1111" then .err "position_list_query failed" else .ok [⟨"US.AAPL", 1⟩]
  , accinfoResult := fun _ => .ok [⟨500⟩] }

/-- Run with one real account whose positions query is degraded and whose
summary succeeds with 500 total assets. -/
def ctxDegradedPositions : TradeCtx :=
  { accListResult := .ok [⟨"A1111", "REAL"⟩]
  , positionsResult := fun _ => .err "position_list_query failed"
  , accinfoResult := fun _ => .ok [⟨500⟩] }

/-- Run with one real account whose positions query succeeds with zero rows
and whose summary succeeds with 500 total assets. -/
def ctxEmptyPositions : TradeCtx :=
  { accListResult := .ok [⟨"A1111", "REAL"⟩]
  , positionsResult := fun _ => .ok []
  , accinfoResult := fun _ => .ok [⟨500⟩] }

/-- Run where account A1111 has a successful summary (500) and account B2222
has a degraded summary query. -/
def ctxStale : TradeCtx :=
  { accListResult := .ok [⟨"A1111", "REAL"⟩, ⟨"B2222", "REAL"⟩]
  , positionsResult := fun _ => .ok []
  , accinfoResult := fun a =>
      if a == "A1111" then .ok [⟨500⟩] else .err "accinfo_query failed" }

/-- Run with one real account whose summary reports zero total assets. -/
def ctxInactive : TradeCtx :=
  { accListResult := .ok [⟨"A2222", "REAL"⟩]
  , positionsResult := fun _ => .ok []
  , accinfoResult := fun _ => .ok [⟨0⟩] }

/-- Run with one real account holding one position and 500 total assets. -/
def ctxActive : TradeCtx :=
  { accListResult := .ok [⟨"A1111", "REAL"⟩, ⟨"P3333", "SIMULATE"⟩]
  , positionsResult := fun _ => .ok [⟨"US.AAPL", 1⟩]
  , accinfoResult := fun _ => .ok [⟨500⟩] }

/-- Run whose account-listing call is degraded. -/
def ctxListFails : TradeCtx :=
  { accListResult := .err "get_acc_list failed"
  , positionsResult := fun _ => .ok []
  , accinfoResult := fun _ => .ok [⟨500⟩] }

/-- Network on which no connection attempt ever succeeds. -/
def netDead : Net := ⟨fun _ _ _ => false⟩

/-- Network on which every connection attempt succeeds. -/
def netLive : Net := ⟨fun _ _ _ => true⟩

/-- World whose gateway never listens. -/
def wDead : World := { net := netDead, ctorError := none, ctx := ctxActive, now := "20260101_120000" }

/-- World whose gateway is up and whose run proceeds normally. -/
def wLive : World := { net := netLive, ctorError := none, ctx := ctxActive, now := "20260101_120000" }

/-! ## Helper lemmas -/

/-- Python int() of a nonnegative rational is its floor. -/
theorem pyInt_eq_floor (q : ℚ) (h : 0 ≤ q) : pyInt q = ⌊q⌋ := by
  unfold pyInt
  rw [if_neg (not_lt.mpr h)]
  rfl

/-- With timeout 3 and retry interval 0.5 the probe budget is 6 attempts. -/
theorem numAttempts_default : numAttempts 3 (0.5 : ℚ) = 6 := by
  have h1 : (3 : ℚ) / (0.5 : ℚ) = 6 := by norm_num
  have h2 : pyInt ((3 : ℚ) / (0.5 : ℚ)) = 6 := by
    rw [h1, pyInt_eq_floor 6 (by norm_num)]
    norm_num
  simp [numAttempts, h2]

/-- When no attempt ever succeeds, the probe loop runs to exhaustion: it
returns false and makes one failed attempt per iteration, each with socket
timeout equal to the retry interval. -/
theorem probeGo_allFalse (net : Net) (host : String) (port : Nat) (r : ℚ)
    (hfail : ∀ i, net.connectOk host port i = false) :
    ∀ n i, probeGo net host port r n i =
      (false, List.replicate n ⟨host, port, r, false⟩) := by
  intro n
  induction n with
  | zero => intro i; rfl
  | succ m ih =>
    intro i
    simp only [probeGo, hfail i, ih (i + 1), Bool.false_eq_true, if_false,
      List.replicate_succ]

/-- The pre-filter prints of one loop iteration never include a skip notice
or a file write. -/
theorem headEvents_shape (ctx : TradeCtx) (accId : String) :
    ∀ ev ∈ headEvents ctx accId,
      (∃ a, ev = Event.queryingAccount a) ∨ (∃ n, ev = Event.positionsFound n) ∨
      (∃ v, ev = Event.totalAssetsShown v) := by
  intro ev hev
  unfold headEvents at hev
  rcases List.mem_cons.mp hev with rfl | h
  · exact Or.inl ⟨accId, rfl⟩
  rcases List.mem_append.mp h with h | h
  · cases hp : ctx.positionsResult accId with
    | ok rows =>
      simp only [hp] at h
      by_cases h0 : 0 < rows.length
      · simp only [if_pos h0, List.mem_singleton] at h
        exact Or.inr (Or.inl ⟨rows.length, h⟩)
      · simp only [if_neg h0, List.not_mem_nil] at h
    | err m =>
      simp only [hp, List.not_mem_nil] at h
  · cases ha : ctx.accinfoResult accId with
    | ok rows =>
      cases rows with
      | nil => simp only [ha, List.head?_nil, List.not_mem_nil] at h
      | cons r rs =>
        simp only [ha, List.head?_cons, List.mem_singleton] at h
        exact Or.inr (Or.inr ⟨r.total_assets, h⟩)
    | err m =>
      simp only [ha, List.not_mem_nil] at h

/-- No file-write event occurs among the pre-filter prints. -/
theorem fileWritten_not_mem_headEvents (ctx : TradeCtx) (accId a f : String)
    (d : SnapshotData) : Event.fileWritten a f d ∉ headEvents ctx accId := by
  intro h
  rcases headEvents_shape ctx accId _ h with ⟨x, hx⟩ | ⟨n, hn⟩ | ⟨v, hv⟩ <;> simp_all

/-- No skip notice occurs among the pre-filter prints. -/
theorem skipInactive_not_mem_headEvents (ctx : TradeCtx) (accId s : String) :
    Event.skipInactive s ∉ headEvents ctx accId := by
  intro h
  rcases headEvents_shape ctx accId _ h with ⟨x, hx⟩ | ⟨n, hn⟩ | ⟨v, hv⟩ <;> simp_all

/-- Exhaustive case analysis of one loop iteration: either the filter variable
is unassigned and NameError aborts, or the account is skipped as inactive, or
it is active and the iteration either raises during conversion, writes exactly
one snapshot file, or (with file export disabled) completes silently. -/
theorem processOne_cases (ctx : TradeCtx) (now : String) (e : Bool) (x : String)
    (tav : Option ℚ) :
    (updatedAssets (ctx.accinfoResult x) tav = none ∧
       processOne ctx now e x tav =
         (headEvents ctx x, .error (PyError.nameError "total_assets_value")))
    ∨ (∃ v, updatedAssets (ctx.accinfoResult x) tav = some v ∧ v ≤ (0.1 : ℚ) ∧
       processOne ctx now e x tav =
         (headEvents ctx x ++ [Event.skipInactive x], .ok (some v)))
    ∨ (∃ v, updatedAssets (ctx.accinfoResult x) tav = some v ∧ (0.1 : ℚ) < v ∧
       ((∃ er, processOne ctx now e x tav = (headEvents ctx x, .error er))
        ∨ (∃ d, processOne ctx now e x tav =
             (headEvents ctx x ++ [Event.fileWritten x (outFileName x now) d],
              .ok (some v)))
        ∨ processOne ctx now e x tav = (headEvents ctx x, .ok (some v)))) := by
  rcases hu : updatedAssets (ctx.accinfoResult x) tav with _ | v
  · exact Or.inl ⟨rfl, by simp only [processOne, hu]⟩
  · by_cases hv : v ≤ (0.1 : ℚ)
    · exact Or.inr (Or.inl ⟨v, rfl, hv, by simp only [processOne, hu, if_pos hv]⟩)
    · refine Or.inr (Or.inr ⟨v, rfl, lt_of_not_le hv, ?_⟩)
      cases hp : (ctx.positionsResult x).toDictRecords with
      | error ep =>
        exact Or.inl ⟨ep, by simp only [processOne, hu, if_neg hv, hp]⟩
      | ok positions =>
        cases ha : (ctx.accinfoResult x).toDictRecords with
        | error ea =>
          exact Or.inl ⟨ea, by simp only [processOne, hu, if_neg hv, hp, ha]⟩
        | ok accRows =>
          cases hh : accRows.head? with
          | none =>
            exact Or.inl ⟨PyError.indexError "list index out of range",
              by simp only [processOne, hu, if_neg hv, hp, ha, hh]⟩
          | some accountDict =>
            cases e with
            | true =>
              exact Or.inr (Or.inl ⟨⟨now, accountDict, positions⟩,
                by simp only [processOne, hu, if_neg hv, hp, ha, hh, if_true]⟩)
            | false =>
              refine Or.inr (Or.inr ?_)
              simp only [processOne, hu, if_neg hv, hp, ha, hh]
              rfl

/-- Whenever one iteration completes without raising, the state it passes to
the next iteration is exactly the filter-time value of
`total_assets_value`. -/
theorem processOne_ok_state {ctx : TradeCtx} {now : String} {e : Bool}
    {x : String} {tav s : Option ℚ}
    (h : (processOne ctx now e x tav).2 = .ok s) :
    ∃ v, s = some v ∧ updatedAssets (ctx.accinfoResult x) tav = some v := by
  rcases processOne_cases ctx now e x tav with ⟨hu, heq⟩ | ⟨v, hu, hv, heq⟩ |
    ⟨v, hu, hv, ⟨er, heq⟩ | ⟨d, heq⟩ | heq⟩ <;> rw [heq] at h <;> dsimp only at h
  · exact Except.noConfusion h
  · injection h with h2
    exact ⟨v, h2.symm, hu⟩
  · exact Except.noConfusion h
  · injection h with h2
    exact ⟨v, h2.symm, hu⟩
  · injection h with h2
    exact ⟨v, h2.symm, hu⟩

/-- A file-write event of one iteration names the account of that iteration and
presupposes a filter-time value strictly above the threshold. -/
theorem fileWritten_mem_processOne {ctx : TradeCtx} {now : String} {e : Bool}
    {x a f : String} {tav : Option ℚ} {d : SnapshotData}
    (h : Event.fileWritten a f d ∈ (processOne ctx now e x tav).1) :
    a = x ∧ ∃ v, updatedAssets (ctx.accinfoResult x) tav = some v ∧ (0.1 : ℚ) < v := by
  rcases processOne_cases ctx now e x tav with ⟨hu, heq⟩ | ⟨v, hu, hv, heq⟩ |
    ⟨v, hu, hv, ⟨er, heq⟩ | ⟨d2, heq⟩ | heq⟩ <;> rw [heq] at h
  · exact absurd h (fileWritten_not_mem_headEvents ctx x a f d)
  · rcases List.mem_append.mp h with h | h
    · exact absurd h (fileWritten_not_mem_headEvents ctx x a f d)
    · simp at h
  · exact absurd h (fileWritten_not_mem_headEvents ctx x a f d)
  · rcases List.mem_append.mp h with h | h
    · exact absurd h (fileWritten_not_mem_headEvents ctx x a f d)
    · rcases List.mem_singleton.mp h with heq2
      cases heq2
      exact ⟨rfl, v, hu, hv⟩
  · exact absurd h (fileWritten_not_mem_headEvents ctx x a f d)

/-- With the filter-time value known, one iteration prints the skip notice
exactly when that value is at most the threshold. -/
theorem skipInactive_mem_processOne {ctx : TradeCtx} {now : String} {e : Bool}
    {x : String} {tav : Option ℚ} {v : ℚ}
    (hu : updatedAssets (ctx.accinfoResult x) tav = some v) :
    Event.skipInactive x ∈ (processOne ctx now e x tav).1 ↔ v ≤ (0.1 : ℚ) := by
  rcases processOne_cases ctx now e x tav with ⟨hu2, heq⟩ | ⟨v2, hu2, hv, heq⟩ |
    ⟨v2, hu2, hv, hcase⟩
  · rw [hu] at hu2; cases hu2
  · rw [hu] at hu2
    injection hu2 with hv2
    subst hv2
    rw [heq]
    simp [List.mem_append, hv]
  · rw [hu] at hu2
    injection hu2 with hv2
    subst hv2
    constructor
    · intro hmem
      rcases hcase with ⟨er, heq⟩ | ⟨d, heq⟩ | heq <;> rw [heq] at hmem
      · exact absurd hmem (skipInactive_not_mem_headEvents ctx x x)
      · rcases List.mem_append.mp hmem with h | h
        · exact absurd h (skipInactive_not_mem_headEvents ctx x x)
        · simp at h
      · exact absurd hmem (skipInactive_not_mem_headEvents ctx x x)
    · intro hle
      exact absurd hle (not_le.mpr hv)

/-- When the first iteration raises, the loop stops with that exception and
only the prints of the first iteration happened. -/
theorem runLoop_cons_error {ctx : TradeCtx} {now : String} {e : Bool}
    {a : String} {rest : List String} {tav : Option ℚ} {er : PyError}
    (h : (processOne ctx now e a tav).2 = .error er) :
    runLoop ctx now e (a :: rest) tav = ((processOne ctx now e a tav).1, some er) := by
  rcases hp : processOne ctx now e a tav with ⟨evs, r⟩
  rw [hp] at h
  dsimp only at h
  subst h
  simp only [runLoop, hp]

/-- When the first iteration completes, the loop continues on the remaining
ids with the state the first iteration left behind. -/
theorem runLoop_cons_ok {ctx : TradeCtx} {now : String} {e : Bool}
    {a : String} {rest : List String} {tav tav2 : Option ℚ}
    (h : (processOne ctx now e a tav).2 = .ok tav2) :
    runLoop ctx now e (a :: rest) tav =
      ((processOne ctx now e a tav).1 ++ (runLoop ctx now e rest tav2).1,
       (runLoop ctx now e rest tav2).2) := by
  rcases hp : processOne ctx now e a tav with ⟨evs, r⟩
  rw [hp] at h
  dsimp only at h
  subst h
  simp only [runLoop, hp]

/-- Over a whole loop, no snapshot file is ever written for an account whose
own summary query succeeded with a total-assets value at most the
threshold. -/
theorem fileWritten_not_mem_runLoop {ctx : TradeCtx} {now : String} {e : Bool}
    {x : String} {v : ℚ} {rs : List SummaryRow}
    (hacc : ctx.accinfoResult x = .ok (⟨v⟩ :: rs)) (hv : v ≤ (0.1 : ℚ)) :
    ∀ (ids : List String) (tav : Option ℚ) (f : String) (d : SnapshotData),
      Event.fileWritten x f d ∉ (runLoop ctx now e ids tav).1 := by
  intro ids
  induction ids with
  | nil =>
    intro tav f d h
    exact absurd h (List.not_mem_nil _)
  | cons a rest ih =>
    intro tav f d h
    have key : Event.fileWritten x f d ∉ (processOne ctx now e a tav).1 := by
      intro hmem
      obtain ⟨rfl, v2, hu2, hv2⟩ := fileWritten_mem_processOne hmem
      rw [hacc] at hu2
      simp only [updatedAssets, List.head?_cons, Option.some.injEq] at hu2
      rw [← hu2] at hv2
      exact absurd hv2 (not_lt.mpr hv)
    cases hr : (processOne ctx now e a tav).2 with
    | error er =>
      rw [runLoop_cons_error hr] at h
      exact key h
    | ok tav2 =>
      rw [runLoop_cons_ok hr] at h
      rcases List.mem_append.mp h with h | h
      · exact key h
      · exact ih tav2 f d h

/-- The probe succeeds immediately on a fully live network (helper for
witnesses). -/
theorem moomoo_is_running_netLive (host : String) (port : Nat) :
    moomoo_is_running netLive host port 3 (0.5 : ℚ) = true := by
  unfold moomoo_is_running
  rw [numAttempts_default]
  rfl

/-- The probe fails on a dead network (helper for witnesses). -/
theorem moomoo_is_running_netDead (host : String) (port : Nat) :
    moomoo_is_running netDead host port 3 (0.5 : ℚ) = false := by
  unfold moomoo_is_running
  rw [probeGo_allFalse netDead host port (0.5 : ℚ) (fun _ => rfl)]

/-! ## Claim theorems -/

/-- C10: calling `export_account_data_for_web` with a non-None `acc_id`
argument always raises NameError (CPython: UnboundLocalError, a NameError
subclass) on the loop header, because the local `acc_ids` is assigned only in
the `acc_id is None` branch; nothing is printed and nothing is exported, so
the single-account parameter is unusable and the function operates only with
`acc_id = None`. -/
theorem acc_id_parameter_unusable (ctx : TradeCtx) (now s : String) (e : Bool) :
    export_account_data_for_web ctx now (some s) e =
      ([], some (PyError.nameError "acc_ids")) := rfl

/-- C9: on a successful listing call, `get_accounts` returns exactly the
account ids of the records whose trading environment equals REAL, projected
to the acc_id field in the order of the underlying listing (a sublist of the
full projection), printing nothing; on a degraded listing it prints the
diagnostic payload and returns the empty list without raising. -/
theorem get_accounts_real_only (ctx : TradeCtx) :
    (∀ rows, ctx.accListResult = .ok rows →
      (get_accounts ctx).2 = [] ∧
      (get_accounts ctx).1 =
        (rows.filter fun r => r.trd_env == "REAL").map (fun r => r.acc_id) ∧
      List.Sublist (get_accounts ctx).1 (rows.map fun r => r.acc_id)) ∧
    (∀ msg, ctx.accListResult = .err msg →
      (get_accounts ctx).1 = [] ∧
      (get_accounts ctx).2 = [Event.getAccListError msg]) := by
  constructor
  · intro rows h
    refine ⟨?_, ?_, ?_⟩ <;> simp only [get_accounts, h]
    exact List.Sublist.map _ (List.filter_sublist rows)
  · intro msg h
    refine ⟨?_, ?_⟩ <;> simp only [get_accounts, h]

/-- Witness for C9 at two concrete contexts: a successful listing holding one
REAL and one SIMULATE account, and a degraded listing. -/
theorem get_accounts_real_only_witness :
    ((get_accounts ctxActive).2 = [] ∧
     (get_accounts ctxActive).1 =
       (([⟨"A1111", "REAL"⟩, ⟨"P3333", "SIMULATE"⟩] : List AccRecord).filter
          fun r => r.trd_env == "REAL").map (fun r => r.acc_id) ∧
     List.Sublist (get_accounts ctxActive).1
       (([⟨"A1111", "REAL"⟩, ⟨"P3333", "SIMULATE"⟩] : List AccRecord).map
          fun r => r.acc_id)) ∧
    ((get_accounts ctxListFails).1 = [] ∧
     (get_accounts ctxListFails).2 = [Event.getAccListError "get_acc_list failed"]) :=
  ⟨(get_accounts_real_only ctxActive).1 _ rfl,
   (get_accounts_real_only ctxListFails).2 _ rfl⟩

/-- C7: against a host/port that never accepts a connection, the probe makes
exactly the floor of timeout over retry-interval connection attempts, each
with socket timeout equal to the retry interval, every attempt fails, and the
probe returns false without raising; with the default timeout 3 and retry
interval 0.5 this is exactly 6 attempts. -/
theorem probe_budget :
    (∀ (net : Net) (host : String) (port : Nat) (t r : ℚ),
      0 ≤ t / r → (∀ i, net.connectOk host port i = false) →
      moomoo_is_running net host port t r = false ∧
      (probeTrace net host port t r).length = (⌊t / r⌋).toNat ∧
      ∀ a ∈ probeTrace net host port t r,
        a.sockTimeout = r ∧ a.succeeded = false) ∧
    (∀ (net : Net) (host : String) (port : Nat),
      (∀ i, net.connectOk host port i = false) →
      moomoo_is_running net host port 3 (0.5 : ℚ) = false ∧
      (probeTrace net host port 3 (0.5 : ℚ)).length = 6) := by
  have main : ∀ (net : Net) (host : String) (port : Nat) (t r : ℚ),
      (∀ i, net.connectOk host port i = false) →
      moomoo_is_running net host port t r = false ∧
      probeTrace net host port t r =
        List.replicate (numAttempts t r) ⟨host, port, r, false⟩ := by
    intro net host port t r hfail
    constructor
    · unfold moomoo_is_running
      rw [probeGo_allFalse net host port r hfail]
    · unfold probeTrace
      rw [probeGo_allFalse net host port r hfail]
  constructor
  · intro net host port t r hq hfail
    obtain ⟨h1, h2⟩ := main net host port t r hfail
    refine ⟨h1, ?_, ?_⟩
    · rw [h2, List.length_replicate, numAttempts, pyInt_eq_floor _ hq]
    · intro a ha
      rw [h2] at ha
      rw [List.eq_of_mem_replicate ha]
      exact ⟨rfl, rfl⟩
  · intro net host port hfail
    obtain ⟨h1, h2⟩ := main net host port 3 (0.5 : ℚ) hfail
    exact ⟨h1, by rw [h2, List.length_replicate, numAttempts_default]⟩

/-- Witness for C7 on the concrete never-listening network. -/
theorem probe_budget_witness :
    moomoo_is_running netDead "127.0.0.1" 11111 3 (0.5 : ℚ) = false ∧
    (probeTrace netDead "127.0.0.1" 11111 3 (0.5 : ℚ)).length = 6 :=
  probe_budget.2 netDead "127.0.0.1" 11111 (fun _ => rfl)

/-- C6: on every run, the context is closed exactly once when acquisition
succeeded (whether the export then completed or raised), and never when
acquisition itself failed (probe failure or constructor failure); the closed
notice is printed in exactly those runs. -/
theorem session_closed_exactly_once (w : World) :
    ((pymain w).closes =
      if moomoo_is_running w.net "127.0.0.1" 11111 3 (0.5 : ℚ) = true ∧
         w.ctorError = none
      then 1 else 0) ∧
    (MainEvent.closed ∈ (pymain w).events ↔
      (moomoo_is_running w.net "127.0.0.1" 11111 3 (0.5 : ℚ) = true ∧
       w.ctorError = none)) := by
  by_cases hp : moomoo_is_running w.net "127.0.0.1" 11111 3 (0.5 : ℚ) = true
  · cases hc : w.ctorError with
    | none =>
      constructor
      · simp [pymain, get_trade_context, hp, hc]
      · simp [pymain, get_trade_context, hp, hc]
    | some m =>
      constructor
      · simp [pymain, get_trade_context, hp, hc]
      · simp [pymain, get_trade_context, hp, hc]
  · constructor
    · simp [pymain, get_trade_context, hp]
    · simp [pymain, get_trade_context, hp]

/-- Witness for C6 at a live world (acquisition succeeds, one close) — the
theorem itself is hypothesis-free, the instance just records a concrete
evaluation point. -/
theorem session_closed_exactly_once_witness :
    ((pymain wLive).closes =
      if moomoo_is_running wLive.net "127.0.0.1" 11111 3 (0.5 : ℚ) = true ∧
         wLive.ctorError = none
      then 1 else 0) ∧
    (MainEvent.closed ∈ (pymain wLive).events ↔
      (moomoo_is_running wLive.net "127.0.0.1" 11111 3 (0.5 : ℚ) = true ∧
       wLive.ctorError = none)) :=
  session_closed_exactly_once wLive

/-- C8: when the probe reports the gateway down, acquisition raises
RuntimeError before any session is opened, the run processes zero accounts
and writes zero files (the whole trace is the acquiring print plus the
failure notice), and nothing is closed; when the probe reports it up and the
constructor does not raise, the session is opened with the fixed market and
clearing-firm configuration (TrdMarket.US, host 127.0.0.1, port 11111,
SecurityFirm.FUTUSG). -/
theorem probe_gates_run (w : World) :
    (moomoo_is_running w.net "127.0.0.1" 11111 3 (0.5 : ℚ) = false →
      pymain w =
        { events := [MainEvent.acquiring, MainEvent.probeNotRunning],
          error := some (PyError.runtimeError "Moomoo OpenD is not running."),
          closes := 0 }) ∧
    (moomoo_is_running w.net "127.0.0.1" 11111 3 (0.5 : ℚ) = true →
      w.ctorError = none →
      get_trade_context w =
        ([MainEvent.sessionOpened openSecTradeContextArgs], Except.ok w.ctx) ∧
      MainEvent.sessionOpened
        { filter_trdmarket := "US", host := "127.0.0.1", port := 11111,
          security_firm := "FUTUSG" } ∈ (pymain w).events) := by
  constructor
  · intro hp
    have hp2 : ¬ (moomoo_is_running w.net "127.0.0.1" 11111 3 (0.5 : ℚ) = true) := by
      simp [hp]
    simp [pymain, get_trade_context, hp2]
  · intro hp hc
    constructor
    · simp [get_trade_context, hp, hc]
    · simp [pymain, get_trade_context, hp, hc, openSecTradeContextArgs]

/-- Witness for C8: a dead-network world and a live-network world. -/
theorem probe_gates_run_witness :
    pymain wDead =
      { events := [MainEvent.acquiring, MainEvent.probeNotRunning],
        error := some (PyError.runtimeError "Moomoo OpenD is not running."),
        closes := 0 } ∧
    MainEvent.sessionOpened
      { filter_trdmarket := "US", host := "127.0.0.1", port := 11111,
        security_firm := "FUTUSG" } ∈ (pymain wLive).events :=
  ⟨(probe_gates_run wDead).1 (moomoo_is_running_netDead _ _),
   ((probe_gates_run wLive).2 (moomoo_is_running_netLive _ _) rfl).2⟩

/-- C5: a snapshot-file write inside one loop iteration always names that
account of the writing iteration and requires the filter-time value of
`total_assets_value` to exceed the 0.1 threshold; and across a whole run, no
snapshot file is written for an account whose own summary reported total
assets at most 0.1. -/
theorem snapshot_only_for_active_accounts :
    (∀ (ctx : TradeCtx) (now x a : String) (tav : Option ℚ) (f : String)
       (d : SnapshotData),
      Event.fileWritten a f d ∈ (processOne ctx now true x tav).1 →
      a = x ∧ ∃ v, updatedAssets (ctx.accinfoResult x) tav = some v ∧ (0.1 : ℚ) < v) ∧
    (∀ (ctx : TradeCtx) (now x : String) (v : ℚ) (rs : List SummaryRow),
      ctx.accinfoResult x = .ok (⟨v⟩ :: rs) → v ≤ (0.1 : ℚ) →
      ∀ (ids : List String) (tav : Option ℚ) (f : String) (d : SnapshotData),
        Event.fileWritten x f d ∉ (runLoop ctx now true ids tav).1) := by
  constructor
  · intro ctx now x a tav f d h
    exact fileWritten_mem_processOne h
  · intro ctx now x v rs hacc hv
    exact fileWritten_not_mem_runLoop hacc hv

/-- Witness for C5: an active account whose file write carries assets 500,
and an inactive account for which a whole run writes nothing. -/
theorem snapshot_only_for_active_accounts_witness :
    (("A1111" : String) = "A1111" ∧
      ∃ v, updatedAssets (ctxActive.accinfoResult "A1111") none = some v ∧
        (0.1 : ℚ) < v) ∧
    Event.fileWritten "A2222" "account_2222_data_t.json" ⟨"t", ⟨0⟩, []⟩ ∉
      (runLoop ctxInactive "t" true ["A2222"] none).1 := by
  constructor
  · refine snapshot_only_for_active_accounts.1 ctxActive "20260101_120000" "A1111"
      "A1111" none (outFileName "A1111" "20260101_120000")
      ⟨"20260101_120000", ⟨500⟩, [⟨"US.AAPL", 1⟩]⟩ ?_
    simp [processOne, headEvents, updatedAssets, QueryResult.toDictRecords, ctxActive,
      (by norm_num : ¬ ((500 : ℚ) ≤ (0.1 : ℚ)))]
  · exact snapshot_only_for_active_accounts.2 ctxInactive "t" "A2222" 0 [] rfl
      (by norm_num) ["A2222"] none "account_2222_data_t.json" ⟨"t", ⟨0⟩, []⟩

/-- C3: when account `b` is processed after account `a` whose summary query
succeeded with first-row total assets `v`, and the summary query for `b`
degrades (non-success status or empty result), the loop evaluates the
activity threshold for `b` against the leftover `v` from the prior
iteration — `updatedAssets` keeps the stale value, the loop hands it to the
iteration for `b`, and `b` is skipped exactly when the stale `v` is at most
0.1, independently of any data of `b` itself. -/
theorem stale_assets_reused (ctx : TradeCtx) (now a b : String) (v : ℚ)
    (rs : List SummaryRow) (s : Option ℚ)
    (ha : ctx.accinfoResult a = .ok (⟨v⟩ :: rs))
    (hb : (∃ m, ctx.accinfoResult b = .err m) ∨ ctx.accinfoResult b = .ok [])
    (hok : (processOne ctx now true a none).2 = .ok s) :
    s = some v ∧
    runLoop ctx now true [a, b] none =
      ((processOne ctx now true a none).1 ++ (runLoop ctx now true [b] (some v)).1,
       (runLoop ctx now true [b] (some v)).2) ∧
    updatedAssets (ctx.accinfoResult b) (some v) = some v ∧
    (Event.skipInactive b ∈ (processOne ctx now true b (some v)).1 ↔
      v ≤ (0.1 : ℚ)) := by
  have hs : s = some v := by
    obtain ⟨v2, hsv, hu⟩ := processOne_ok_state hok
    rw [ha] at hu
    simp only [updatedAssets, List.head?_cons, Option.some.injEq] at hu
    rw [hsv, hu]
  have hub : updatedAssets (ctx.accinfoResult b) (some v) = some v := by
    rcases hb with ⟨m, hm⟩ | hm <;> rw [hm] <;> simp [updatedAssets]
  subst hs
  exact ⟨rfl, runLoop_cons_ok hok, hub, skipInactive_mem_processOne hub⟩

/-- Witness for C3: account A1111 leaves 500 in `total_assets_value`; account
the summary for B2222 degrades and B2222 is filtered against the stale 500. -/
theorem stale_assets_reused_witness :
    (some (500 : ℚ) : Option ℚ) = some 500 ∧
    runLoop ctxStale "t" true ["A1111", "B2222"] none =
      ((processOne ctxStale "t" true "A1111" none).1 ++
         (runLoop ctxStale "t" true ["B2222"] (some 500)).1,
       (runLoop ctxStale "t" true ["B2222"] (some 500)).2) ∧
    updatedAssets (ctxStale.accinfoResult "B2222") (some 500) = some 500 ∧
    (Event.skipInactive "B2222" ∈
        (processOne ctxStale "t" true "B2222" (some 500)).1 ↔
      (500 : ℚ) ≤ (0.1 : ℚ)) :=
  stale_assets_reused ctxStale "t" "A1111" "B2222" 500 [] (some 500)
    (by simp [ctxStale])
    (Or.inl ⟨"accinfo_query failed", by simp [ctxStale]⟩)
    (by simp [processOne, headEvents, updatedAssets, QueryResult.toDictRecords, ctxStale,
      (by norm_num : ¬ ((500 : ℚ) ≤ (0.1 : ℚ)))])

/-- C4 as stated is false: the skip notice on line 144 interpolates the full
account id, not its last 4 digits.  Concretely, the inactive account A2222 is
skipped with notice data A2222 (while the last-4 form would be 2222, which is
a different string and never shown). -/
theorem skip_notice_shows_full_id_cx :
    export_account_data_for_web ctxInactive "20260101_120000" none true =
      ([Event.queryingAccount "A2222", Event.totalAssetsShown 0,
        Event.skipInactive "A2222"], none) ∧
    last4 "A2222" = "2222" ∧
    ("A2222" : String) ≠ "2222" ∧
    Event.skipInactive "2222" ∉
      (export_account_data_for_web ctxInactive "20260101_120000" none true).1 := by
  have heq : export_account_data_for_web ctxInactive "20260101_120000" none true =
      ([Event.queryingAccount "A2222", Event.totalAssetsShown 0,
        Event.skipInactive "A2222"], none) := by
    simp [export_account_data_for_web, get_accounts, runLoop, processOne, headEvents,
      updatedAssets, ctxInactive, (by norm_num : (0 : ℚ) ≤ (0.1 : ℚ))]
  refine ⟨heq, by decide, by decide, ?_⟩
  rw [heq]
  decide

/-- C4 amended: an account whose summary reports total assets at most 0.1 is
skipped with no snapshot written, and the skip notice identifies it by its
full account id (the last-4 truncation appears only in export file names). -/
theorem inactive_skip_shows_full_id (ctx : TradeCtx) (now x : String) (v : ℚ)
    (rs : List SummaryRow) (tav : Option ℚ)
    (hacc : ctx.accinfoResult x = .ok (⟨v⟩ :: rs)) (hv : v ≤ (0.1 : ℚ)) :
    processOne ctx now true x tav =
      (headEvents ctx x ++ [Event.skipInactive x], .ok (some v)) ∧
    Event.skipInactive x ∈ (processOne ctx now true x tav).1 ∧
    ∀ (a f : String) (d : SnapshotData),
      Event.fileWritten a f d ∉ (processOne ctx now true x tav).1 := by
  have hu : updatedAssets (ctx.accinfoResult x) tav = some v := by
    rw [hacc]
    simp [updatedAssets]
  have heq : processOne ctx now true x tav =
      (headEvents ctx x ++ [Event.skipInactive x], .ok (some v)) := by
    simp only [processOne, hu, if_pos hv]
  refine ⟨heq, ?_, ?_⟩
  · rw [heq]
    simp
  · intro a f d hmem
    rw [heq] at hmem
    rcases List.mem_append.mp hmem with h | h
    · exact absurd h (fileWritten_not_mem_headEvents ctx x a f d)
    · simp at h

/-- Witness for the amended statement of C4 at the concrete inactive account. -/
theorem inactive_skip_shows_full_id_witness :
    processOne ctxInactive "t" true "A2222" none =
      (headEvents ctxInactive "A2222" ++ [Event.skipInactive "A2222"],
       .ok (some 0)) ∧
    Event.skipInactive "A2222" ∈ (processOne ctxInactive "t" true "A2222" none).1 ∧
    Event.fileWritten "A2222" "account_2222_data_t.json" ⟨"t", ⟨0⟩, []⟩ ∉
      (processOne ctxInactive "t" true "A2222" none).1 := by
  obtain ⟨h1, h2, h3⟩ :=
    inactive_skip_shows_full_id ctxInactive "t" "A2222" 0 [] none rfl (by norm_num)
  exact ⟨h1, h2, h3 "A2222" "account_2222_data_t.json" ⟨"t", ⟨0⟩, []⟩⟩

/-- C1 as stated is false: there is no try/except inside the per-account
loop, so a failure raised while processing one account aborts the whole run.
Concretely, with two real accounts where the positions query of the first account
degrades (and its summary reports 500), the conversion step raises
AttributeError, the run stops with that error, the second account is never
queried, and no file is written. -/
theorem per_account_failure_propagates_cx :
    export_account_data_for_web ctxCrashFirst "20260101_120000" none true =
      ([Event.queryingAccount "A1111", Event.totalAssetsShown 500],
       some (PyError.attributeError "position_list_query failed")) ∧
    Event.queryingAccount "B2222" ∉
      (export_account_data_for_web ctxCrashFirst "20260101_120000" none true).1 ∧
    ((export_account_data_for_web ctxCrashFirst "20260101_120000" none true).1.all
      fun ev => !ev.isFileWrite) = true := by
  have heq : export_account_data_for_web ctxCrashFirst "20260101_120000" none true =
      ([Event.queryingAccount "A1111", Event.totalAssetsShown 500],
       some (PyError.attributeError "position_list_query failed")) := by
    simp [export_account_data_for_web, get_accounts, runLoop, processOne, headEvents,
      updatedAssets, QueryResult.toDictRecords, ctxCrashFirst,
      (by norm_num : ¬ ((500 : ℚ) ≤ (0.1 : ℚ)))]
  refine ⟨heq, ?_, ?_⟩ <;> rw [heq] <;> decide

/-- C1 amended: an exception raised inside the per-account loop is not
caught there — the loop stops at the failing account with that exception and
the remaining account ids are abandoned; the run then terminates with the
error, and the top-level finally still closes the session (exactly one close
whenever acquisition succeeded). -/
theorem per_account_failure_aborts :
    (∀ (ctx : TradeCtx) (now x : String) (rest : List String) (tav : Option ℚ)
       (er : PyError),
      (processOne ctx now true x tav).2 = .error er →
      runLoop ctx now true (x :: rest) tav =
        ((processOne ctx now true x tav).1, some er)) ∧
    (∀ w : World,
      moomoo_is_running w.net "127.0.0.1" 11111 3 (0.5 : ℚ) = true →
      w.ctorError = none → (pymain w).closes = 1) := by
  constructor
  · intro ctx now x rest tav er h
    exact runLoop_cons_error h
  · intro w hp hc
    simp [pymain, get_trade_context, hp, hc]

/-- Witness for the amended statement of C1: the crashing first account abandons
the second, and a live world still closes its session once. -/
theorem per_account_failure_aborts_witness :
    runLoop ctxCrashFirst "20260101_120000" true ["A1111", "B2222"] none =
      ((processOne ctxCrashFirst "20260101_120000" true "A1111" none).1,
       some (PyError.attributeError "position_list_query failed")) ∧
    (pymain wLive).closes = 1 :=
  ⟨per_account_failure_aborts.1 ctxCrashFirst "20260101_120000" "A1111" ["B2222"]
     none (PyError.attributeError "position_list_query failed")
     (by simp [processOne, headEvents, updatedAssets, QueryResult.toDictRecords,
        ctxCrashFirst, (by norm_num : ¬ ((500 : ℚ) ≤ (0.1 : ℚ)))]),
   per_account_failure_aborts.2 wLive (moomoo_is_running_netLive _ _) rfl⟩

/-- C2 as stated is false: when the positions query returns a non-success
status the degraded payload is left in `positions_data`, and if the summary
succeeds with total assets above the threshold the conversion on line 148
raises AttributeError — no snapshot is written for the account at all, rather
than one with an empty positions list. -/
theorem degraded_positions_no_snapshot_cx :
    ctxDegradedPositions.positionsResult "A1111" =
      .err "position_list_query failed" ∧
    ctxDegradedPositions.accinfoResult "A1111" = .ok [⟨500⟩] ∧
    (0.1 : ℚ) < 500 ∧
    export_account_data_for_web ctxDegradedPositions "20260101_120000" none true =
      ([Event.queryingAccount "A1111", Event.totalAssetsShown 500],
       some (PyError.attributeError "position_list_query failed")) ∧
    ((export_account_data_for_web ctxDegradedPositions "20260101_120000" none
        true).1.all fun ev => !ev.isFileWrite) = true := by
  have heq : export_account_data_for_web ctxDegradedPositions "20260101_120000"
      none true =
      ([Event.queryingAccount "A1111", Event.totalAssetsShown 500],
       some (PyError.attributeError "position_list_query failed")) := by
    simp [export_account_data_for_web, get_accounts, runLoop, processOne, headEvents,
      updatedAssets, QueryResult.toDictRecords, ctxDegradedPositions,
      (by norm_num : ¬ ((500 : ℚ) ≤ (0.1 : ℚ)))]
  refine ⟨rfl, rfl, by norm_num, heq, ?_⟩
  rw [heq]
  decide

/-- C2 amended: for an account whose summary succeeds with total assets above
the threshold, a degraded positions query makes the conversion step raise
AttributeError and abort the run with no snapshot for that account; a
snapshot whose positions field is the empty list is written exactly in the
nearby case where the positions query succeeds with zero rows. -/
theorem degraded_positions_conversion :
    (∀ (ctx : TradeCtx) (now x : String) (tav : Option ℚ) (m : String)
       (r : SummaryRow) (rs : List SummaryRow),
      ctx.positionsResult x = .err m →
      ctx.accinfoResult x = .ok (r :: rs) →
      (0.1 : ℚ) < r.total_assets →
      processOne ctx now true x tav =
        ([Event.queryingAccount x, Event.totalAssetsShown r.total_assets],
         .error (PyError.attributeError m))) ∧
    (∀ (ctx : TradeCtx) (now x : String) (tav : Option ℚ)
       (r : SummaryRow) (rs : List SummaryRow),
      ctx.positionsResult x = .ok [] →
      ctx.accinfoResult x = .ok (r :: rs) →
      (0.1 : ℚ) < r.total_assets →
      processOne ctx now true x tav =
        ([Event.queryingAccount x, Event.totalAssetsShown r.total_assets,
          Event.fileWritten x (outFileName x now) ⟨now, r, []⟩],
         .ok (some r.total_assets))) := by
  constructor
  · intro ctx now x tav m r rs hpos hacc hv
    have hu : updatedAssets (QueryResult.ok (r :: rs)) tav = some r.total_assets := by
      simp [updatedAssets]
    have hne : ¬ (r.total_assets ≤ (0.1 : ℚ)) := not_le.mpr hv
    simp [processOne, headEvents, QueryResult.toDictRecords, hpos, hacc, hu, hne]
  · intro ctx now x tav r rs hpos hacc hv
    have hu : updatedAssets (QueryResult.ok (r :: rs)) tav = some r.total_assets := by
      simp [updatedAssets]
    have hne : ¬ (r.total_assets ≤ (0.1 : ℚ)) := not_le.mpr hv
    simp [processOne, headEvents, QueryResult.toDictRecords, hpos, hacc, hu, hne]

/-- Witness for the amended statement of C2 at concrete contexts: a degraded
positions query crashes the iteration; an empty but successful positions
query yields the empty-positions snapshot. -/
theorem degraded_positions_conversion_witness :
    processOne ctxDegradedPositions "20260101_120000" true "A1111" none =
      ([Event.queryingAccount "A1111", Event.totalAssetsShown 500],
       .error (PyError.attributeError "position_list_query failed")) ∧
    processOne ctxEmptyPositions "20260101_120000" true "A1111" none =
      ([Event.queryingAccount "A1111", Event.totalAssetsShown 500,
        Event.fileWritten "A1111" (outFileName "A1111" "20260101_120000")
          ⟨"20260101_120000", ⟨500⟩, []⟩],
       .ok (some 500)) :=
  ⟨degraded_positions_conversion.1 ctxDegradedPositions "20260101_120000" "A1111"
     none "position_list_query failed" ⟨500⟩ [] rfl rfl (by norm_num),
   degraded_positions_conversion.2 ctxEmptyPositions "20260101_120000" "A1111"
     none ⟨500⟩ [] rfl rfl (by norm_num)⟩

end MoomooExport
